import Mathlib

/-!
Shallow embedding of the SFMesh Blender exporter (`src/sfmesh/__init__.py`).

Modelling conventions:
* Python `bytes` values are `List Nat` with entries below 256.
* IEEE-754 single-precision floats are represented by their 32-bit pattern
  (a `Nat`); `struct.pack("<f", x)` emits exactly those four bytes
  little-endian, so representing a float by its bit pattern is lossless.
* `struct.pack` on bounded integer formats (`<B`, `<H`, `<I`) raises
  `struct.error` in Python 3 when the value is out of range; this is
  modelled by `pack_u` returning `Except`.  `int.to_bytes` similarly raises
  `OverflowError`.
* `Object.to_mesh()` either raises `RuntimeError`, returns `None`, or
  yields mesh data; both failure forms make the writer `return` early, and
  an uncaught exception elsewhere aborts the export.  A pass therefore
  produces the bytes written so far, the warnings reported so far, and an
  optional uncaught exception.
* The host tool's geometry work (modifier evaluation, bmesh triangulation,
  matrix transform, normal flip, tangent computation) is an external
  collaborator per the design document; the `Mesh` value models the
  resolved, already-triangulated geometry that the writer reads.
* `lzma.compress(..., format=FORMAT_ALONE, preset=9)` is an external
  library routine; it is taken as a function parameter `lzcompress` of the
  packer, about which only its output bytes matter.
-/

namespace SFMesh

/-- Little-endian byte list of `n` using `width` bytes (low byte first). -/
def le_bytes : Nat → Nat → List Nat
  | 0, _ => []
  | width + 1, n => n % 256 :: le_bytes width (n / 256)

/-- Read a little-endian byte list back into a natural number. -/
def from_le : List Nat → Nat
  | [] => 0
  | b :: bs => b + 256 * from_le bs

/-- Python exceptions that can escape the writer uncaught. -/
inductive PyErr where
  | structError
  | overflowError
  | indexError
  | attrError
deriving DecidableEq

/-- Model of `struct.pack` on an unsigned little-endian integer format of
`width` bytes: Python 3 raises `struct.error` when the value is out of
range, otherwise emits the bytes. -/
def pack_u (width n : Nat) : Except PyErr (List Nat) :=
  if n < 256 ^ width then .ok (le_bytes width n) else .error .structError

/-- Model of `struct.pack("<f", x)`: the float's IEEE-754 bit pattern,
four bytes little-endian.  Packing a float never raises. -/
def pack_f (bits : Nat) : List Nat := le_bytes 4 bits

/-- Model of `int.to_bytes(width, "little")`: raises `OverflowError` when
the integer does not fit. -/
def int_to_bytes (width n : Nat) : Except PyErr (List Nat) :=
  if n < 256 ^ width then .ok (le_bytes width n) else .error .overflowError

/-- One element of `mesh.loops`: a vertex reference plus the tangent
computed by `calc_tangents` (three float bit patterns). -/
structure Loop where
  vertex_index : Nat
  tangent_0 : Nat
  tangent_1 : Nat
  tangent_2 : Nat
deriving DecidableEq

/-- One element of `mesh.vertices`: position and normal float bit
patterns. -/
structure MeshVertex where
  co_x : Nat
  co_y : Nat
  co_z : Nat
  normal_x : Nat
  normal_y : Nat
  normal_z : Nat
deriving DecidableEq

/-- One element of `mesh.uv_layers.active.data`: a UV pair. -/
structure UVCoord where
  x : Nat
  y : Nat
deriving DecidableEq

/-- One element of `mesh.loop_triangles`: its loop indices (three in any
real mesh). -/
structure LoopTriangle where
  loops : List Nat
deriving DecidableEq

/-- The mesh data read by the writer after `calc_loop_triangles` and
`calc_tangents`.  `uv_active` is `none` when the mesh has no active UV
layer (`mesh.uv_layers.active is None`). -/
structure Mesh where
  loop_triangles : List LoopTriangle
  loops : List Loop
  vertices : List MeshVertex
  uv_active : Option (List UVCoord)
deriving DecidableEq

/-- Outcome of `mesh_owner.to_mesh()`: a `RuntimeError` (caught, causing
an early `return`), a `None` result (same effect), or mesh data. -/
inductive ResolveResult where
  | raisesRuntimeError
  | noMesh
  | ok (m : Mesh)
deriving DecidableEq

/-- A scene object as the writer sees it: its `type` tag, the UTF-8 bytes
of its name, and what `to_mesh()` yields for it.  `update_from_editmode`
and modifier evaluation only influence which geometry the host hands back,
so they are absorbed into `resolve`. -/
structure Obj where
  type : String
  name : List Nat
  resolve : ResolveResult
deriving DecidableEq

/-- Result of the header pass: bytes written to the buffer, warnings
reported via `self.report`, and an optional uncaught exception. -/
structure HeaderResult where
  bytes : List Nat
  warnings : List (List Nat)
  err : Option PyErr
deriving DecidableEq

/-- Per-object loop of `write_header`: resolve the mesh (early `return` on
failure), report a warning when the triangle count is 2^16 or more, then
write name length, name bytes, and the 16-bit triangle count.  The
`struct.pack("<H", num_tris)` call raises for counts of 2^16 or more,
after the name bytes are already in the buffer. -/
def header_objs : List Obj → HeaderResult
  | [] => ⟨[], [], none⟩
  | obj :: rest =>
    match obj.resolve with
    | .raisesRuntimeError => ⟨[], [], none⟩
    | .noMesh => ⟨[], [], none⟩
    | .ok mesh =>
      let num_tris := mesh.loop_triangles.length
      let warns := if 2 ^ 16 ≤ num_tris then [obj.name] else []
      match pack_u 4 obj.name.length with
      | .error e => ⟨[], warns, some e⟩
      | .ok len_bytes =>
        match pack_u 2 num_tris with
        | .error e => ⟨len_bytes ++ obj.name, warns, some e⟩
        | .ok tri_bytes =>
          let r := header_objs rest
          ⟨len_bytes ++ obj.name ++ tri_bytes ++ r.bytes, warns ++ r.warnings, r.err⟩

/-- Bytes of `struct.pack("<BBB", version["major"], version["minor"],
version["type"])` with the fixed constants 1, 0, 0. -/
def version_bytes : List Nat := [1, 0, 0]

/-- Bytes of `struct.pack("<I", 0)`, the reserved options field. -/
def options_bytes : List Nat := le_bytes 4 0

/-- Model of `write_header`: version tag, options field, the 32-bit count
of objects whose `type` equals `"MESH"` (computed from the complete list),
then the per-object metadata loop over the whole list. -/
def write_header (objects : List Obj) : HeaderResult :=
  let num_objects := objects.countP (fun o => o.type == "MESH")
  match pack_u 4 num_objects with
  | .error e => ⟨version_bytes ++ options_bytes, [], some e⟩
  | .ok cnt_bytes =>
    let r := header_objs objects
    ⟨version_bytes ++ options_bytes ++ cnt_bytes ++ r.bytes, r.warnings, r.err⟩

/-- Result of the body pass: bytes written and an optional uncaught
exception. -/
structure BodyResult where
  bytes : List Nat
  err : Option PyErr
deriving DecidableEq

/-- Encoding of one loop in `write_objects`: look up the loop, its vertex,
and its UV datum (a missing active UV layer is an `AttributeError`, an
out-of-range index an `IndexError`), then emit position, normal, UV and
tangent floats, four bytes each, little-endian, in that order. -/
def body_loop (mesh : Mesh) (loop_index : Nat) : Except PyErr (List Nat) :=
  match mesh.loops[loop_index]? with
  | none => .error .indexError
  | some loop =>
    match mesh.vertices[loop.vertex_index]? with
    | none => .error .indexError
    | some vertex =>
      match mesh.uv_active with
      | none => .error .attrError
      | some uv_data =>
        match uv_data[loop_index]? with
        | none => .error .indexError
        | some uv =>
          .ok (pack_f vertex.co_x ++ pack_f vertex.co_y ++ pack_f vertex.co_z ++
               pack_f vertex.normal_x ++ pack_f vertex.normal_y ++ pack_f vertex.normal_z ++
               pack_f uv.x ++ pack_f uv.y ++
               pack_f loop.tangent_0 ++ pack_f loop.tangent_1 ++ pack_f loop.tangent_2)

/-- Sequential encoding of a list of loop indices; an exception aborts the
loop with the bytes written so far. -/
def body_indices (mesh : Mesh) : List Nat → BodyResult
  | [] => ⟨[], none⟩
  | i :: rest =>
    match body_loop mesh i with
    | .error e => ⟨[], some e⟩
    | .ok bs =>
      let r := body_indices mesh rest
      ⟨bs ++ r.bytes, r.err⟩

/-- The triangle loop of `write_objects`: for each triangle, its loops are
visited in reversed order (`for loop_index in reversed(triangle.loops)`). -/
def body_triangles (mesh : Mesh) : List LoopTriangle → BodyResult
  | [] => ⟨[], none⟩
  | t :: rest =>
    let r1 := body_indices mesh t.loops.reverse
    match r1.err with
    | some e => ⟨r1.bytes, some e⟩
    | none =>
      let r2 := body_triangles mesh rest
      ⟨r1.bytes ++ r2.bytes, r2.err⟩

/-- Model of `write_objects`: per object, resolve the mesh (early `return`
on failure) and emit its triangle stream. -/
def write_objects : List Obj → BodyResult
  | [] => ⟨[], none⟩
  | obj :: rest =>
    match obj.resolve with
    | .raisesRuntimeError => ⟨[], none⟩
    | .noMesh => ⟨[], none⟩
    | .ok mesh =>
      let r1 := body_triangles mesh mesh.loop_triangles
      match r1.err with
      | some e => ⟨r1.bytes, some e⟩
      | none =>
        let r2 := write_objects rest
        ⟨r1.bytes ++ r2.bytes, r2.err⟩

/-- Result of `write_sfmesh_raw`: buffer contents, warnings, optional
uncaught exception. -/
structure RawResult where
  bytes : List Nat
  warnings : List (List Nat)
  err : Option PyErr
deriving DecidableEq

/-- Model of `write_sfmesh_raw`: header pass then body pass into the same
buffer; an exception in the header pass prevents the body pass. -/
def write_sfmesh_raw (objects : List Obj) : RawResult :=
  let h := write_header objects
  match h.err with
  | some e => ⟨h.bytes, h.warnings, some e⟩
  | none =>
    let b := write_objects objects
    ⟨h.bytes ++ b.bytes, h.warnings, b.err⟩

/-- Base64 alphabet: sextet to ASCII code. -/
def b64char (s : Nat) : Nat :=
  if s < 26 then 65 + s
  else if s < 52 then 97 + (s - 26)
  else if s < 62 then 48 + (s - 52)
  else if s = 62 then 43
  else 47

/-- Model of `base64.b64encode` on a byte list: three bytes become four
alphabet characters, a short final group is padded with `=` (ASCII 61). -/
def b64encode : List Nat → List Nat
  | [] => []
  | [a] => [b64char (a / 4), b64char (a % 4 * 16), 61, 61]
  | [a, b] => [b64char (a / 4), b64char (a % 4 * 16 + b / 16), b64char (b % 16 * 4), 61]
  | a :: b :: c :: rest =>
    b64char (a / 4) :: b64char (a % 4 * 16 + b / 16) ::
      b64char (b % 16 * 4 + c / 64) :: b64char (c % 64) :: b64encode rest

/-- Inverse of the base64 alphabet (0 on characters outside it). -/
def b64inv (c : Nat) : Nat :=
  if 65 ≤ c ∧ c ≤ 90 then c - 65
  else if 97 ≤ c ∧ c ≤ 122 then c - 97 + 26
  else if 48 ≤ c ∧ c ≤ 57 then c - 48 + 52
  else if c = 43 then 62
  else if c = 47 then 63
  else 0

/-- Model of base64 decoding: four characters yield three bytes, with `=`
padding ending the stream after one or two bytes. -/
def b64decode : List Nat → List Nat
  | c1 :: c2 :: c3 :: c4 :: rest =>
    if c3 = 61 then [b64inv c1 * 4 + b64inv c2 / 16]
    else if c4 = 61 then
      [b64inv c1 * 4 + b64inv c2 / 16, b64inv c2 % 16 * 16 + b64inv c3 / 4]
    else
      (b64inv c1 * 4 + b64inv c2 / 16) :: (b64inv c2 % 16 * 16 + b64inv c3 / 4) ::
        (b64inv c3 % 4 * 64 + b64inv c4) :: b64decode rest
  | _ => []

/-- The header patch applied to the compressed stream: keep bytes 0-4,
overwrite bytes 5-12 with the uncompressed size little-endian 64-bit, keep
bytes 13 onward. -/
def patch_lzma (lz : List Nat) (size : Nat) : List Nat :=
  lz.take 5 ++ le_bytes 8 size ++ lz.drop 13

/-- The eight bytes of the literal `b'return "'` written before the base64
payload (the last byte is the opening double quote, ASCII 34). -/
def return_quote : List Nat := [114, 101, 116, 117, 114, 110, 32, 34]

/-- Model of `write_sfmesh`: run the raw writer into a buffer (an uncaught
exception aborts before the destination file is opened); in raw mode the
buffer itself is the file; in packed mode the buffer is compressed by the
external `lzcompress`, its bytes 5-12 are overwritten with the buffer
length via `int.to_bytes(8, "little")`, and the file is the `return "`
literal around the base64 text. -/
def write_sfmesh (lzcompress : List Nat → List Nat) (objects : List Obj)
    (write_raw_file : Bool) : Except PyErr (List Nat) :=
  let r := write_sfmesh_raw objects
  match r.err with
  | some e => .error e
  | none =>
    if write_raw_file then .ok r.bytes
    else
      let buffer_value := r.bytes
      let uncompressed_size := buffer_value.length
      let lzc_string := lzcompress buffer_value
      match int_to_bytes 8 uncompressed_size with
      | .error e => .error e
      | .ok size_bytes =>
        .ok (return_quote ++
             b64encode (lzc_string.take 5 ++ size_bytes ++ lzc_string.drop 13) ++ [34])

/-- Concatenation of the byte lists produced by `f` over a list, in order. -/
def concatMap (f : α → List Nat) : List α → List Nat
  | [] => []
  | a :: l => f a ++ concatMap f l

/-- Triangle count an object contributes in the header pass (its resolved
mesh's `loop_triangles` length; irrelevant when resolution fails). -/
def objNumTris (o : Obj) : Nat :=
  match o.resolve with
  | .ok m => m.loop_triangles.length
  | _ => 0

/-- The metadata block the header pass writes for one object: 32-bit name
byte length, name bytes, 16-bit triangle count. -/
def objMetaBlock (o : Obj) : List Nat :=
  le_bytes 4 o.name.length ++ o.name ++ le_bytes 2 (objNumTris o)

/-- Bytes produced by a successful `body_loop` (empty on failure). -/
def loopBytes (m : Mesh) (i : Nat) : List Nat :=
  match body_loop m i with
  | .ok bs => bs
  | .error _ => []

/-- Whether `body_loop` succeeds at this index. -/
def loopOk (m : Mesh) (i : Nat) : Bool :=
  match body_loop m i with
  | .ok _ => true
  | .error _ => false

/-- Bytes one triangle contributes to the body stream: its loops in
reversed order, each encoded. -/
def triBytes (m : Mesh) (t : LoopTriangle) : List Nat :=
  concatMap (loopBytes m) t.loops.reverse

/-- The body block one object contributes (empty when resolution fails). -/
def objBodyBlock (o : Obj) : List Nat :=
  match o.resolve with
  | .ok m => concatMap (triBytes m) m.loop_triangles
  | _ => []

/-- Well-formedness of resolved mesh data as Blender guarantees it: an
active UV layer with one datum per loop, triangles of exactly three
in-range loop indices, and in-range vertex references. -/
def meshValid (m : Mesh) : Bool :=
  (match m.uv_active with
   | some d => d.length == m.loops.length
   | none => false) &&
  m.loop_triangles.all (fun t =>
    t.loops.length == 3 && t.loops.all (fun i => decide (i < m.loops.length))) &&
  m.loops.all (fun l => decide (l.vertex_index < m.vertices.length))

/-- An object that both passes process without incident: it resolves to
well-formed mesh data, its triangle count fits 16 bits, and its name
length fits 32 bits. -/
def objOk (o : Obj) : Bool :=
  match o.resolve with
  | .ok m =>
    meshValid m && decide (m.loop_triangles.length < 2 ^ 16) &&
      decide (o.name.length < 2 ^ 32)
  | _ => false

/-- The 32-bit object-count field of a raw header: bytes 7-10 read
little-endian. -/
def objCountField (bs : List Nat) : Nat := from_le ((bs.drop 7).take 4)

/-- Read `k` consecutive 32-bit little-endian fields from a byte list. -/
def fields32 : List Nat → Nat → List Nat
  | _, 0 => []
  | bs, k + 1 => from_le (bs.take 4) :: fields32 (bs.drop 4) k

/-- Read back the eleven 32-bit fields of one encoded vertex. -/
def decodeVertex (bs : List Nat) : List Nat := fields32 bs 11

/-- A small well-formed mesh: one triangle over three loops, three
vertices, one UV datum per loop. -/
def sampleMesh : Mesh :=
  ⟨[⟨[0, 1, 2]⟩],
   [⟨0, 900, 901, 902⟩, ⟨1, 910, 911, 912⟩, ⟨2, 920, 921, 922⟩],
   [⟨100, 101, 102, 103, 104, 105⟩, ⟨110, 111, 112, 113, 114, 115⟩,
    ⟨120, 121, 122, 123, 124, 125⟩],
   some [⟨800, 801⟩, ⟨810, 811⟩, ⟨820, 821⟩]⟩

/-- A mesh object that resolves to `sampleMesh`. -/
def sampleObj : Obj := ⟨"MESH", [77], .ok sampleMesh⟩

/-- The single triangle of `sampleMesh`. -/
def sampleTri : LoopTriangle := ⟨[0, 1, 2]⟩

/-- A mesh object whose `to_mesh()` returns `None`. -/
def failObjW : Obj := ⟨"MESH", [70], .noMesh⟩

/-- A stand-in for the external LZMA compressor: thirteen header bytes
followed by the input (any function works in the packer theorems; this one
makes their hypotheses checkable on concrete inputs). -/
def lzcTest (bs : List Nat) : List Nat := List.replicate 13 0 ++ bs

/-- A well-formed mesh with twelve triangles, as in the `"Cube"` scenario. -/
def cubeMesh : Mesh :=
  ⟨List.replicate 12 ⟨[0, 1, 2]⟩,
   [⟨0, 900, 901, 902⟩, ⟨1, 910, 911, 912⟩, ⟨2, 920, 921, 922⟩],
   [⟨100, 101, 102, 103, 104, 105⟩, ⟨110, 111, 112, 113, 114, 115⟩,
    ⟨120, 121, 122, 123, 124, 125⟩],
   some [⟨800, 801⟩, ⟨810, 811⟩, ⟨820, 821⟩]⟩

/-- An object named `"Cube"` (bytes 67 117 98 101) resolving to `cubeMesh`. -/
def cubeObj : Obj := ⟨"MESH", [67, 117, 98, 101], .ok cubeMesh⟩

/-- A mesh object with exactly 2^16 loop triangles (header pass only reads
their count, so their loops can be empty). -/
def bigMesh1 : Mesh := ⟨List.replicate (2 ^ 16) ⟨[]⟩, [], [], some []⟩

/-- An object with 65536 triangles, for the triangle-count overflow. -/
def bigObj1 : Obj := ⟨"MESH", [66], .ok bigMesh1⟩

/-- A mesh with exactly 2^16 loop triangles (warning evaluation). -/
def bigMesh9 : Mesh := ⟨List.replicate (2 ^ 16) ⟨[]⟩, [], [], some []⟩

/-- An object with 65536 triangles (warning evaluation). -/
def bigObj9 : Obj := ⟨"MESH", [66], .ok bigMesh9⟩

/-- A mesh with exactly 65535 loop triangles: largest count that packs. -/
def mesh65535 : Mesh := ⟨List.replicate 65535 ⟨[]⟩, [], [], some []⟩

/-- An object with 65535 triangles: no warning, count packs as 255 255. -/
def obj65535 : Obj := ⟨"MESH", [65], .ok mesh65535⟩

/-- A non-mesh-typed object (for example a curve) whose `to_mesh()`
nevertheless succeeds, here with zero triangles. -/
def curveMeshC2 : Mesh := ⟨[], [], [], some []⟩

/-- A `"CURVE"`-typed object that resolves successfully. -/
def curveObjC2 : Obj := ⟨"CURVE", [65], .ok curveMeshC2⟩

/-- A mesh with 2^16 triangles placed before a failing object. -/
def bigMeshC8 : Mesh := ⟨List.replicate (2 ^ 16) ⟨[]⟩, [], [], some []⟩

/-- An overflowing object preceding a resolution failure. -/
def bigObjC8 : Obj := ⟨"MESH", [66], .ok bigMeshC8⟩

/-- An object whose `to_mesh()` raises `RuntimeError`. -/
def failObjC8 : Obj := ⟨"MESH", [70], .raisesRuntimeError⟩

/-- A `"CURVE"`-typed object that resolves successfully, preceding a
failing mesh object. -/
def curveObjC10 : Obj := ⟨"CURVE", [65], .ok ⟨[], [], [], some []⟩⟩

/-- A `"MESH"`-typed object whose resolution raises. -/
def failObjC10 : Obj := ⟨"MESH", [70], .raisesRuntimeError⟩

theorem le_bytes_length (width : Nat) : ∀ n, (le_bytes width n).length = width := by
  induction width with
  | zero => intro n; rfl
  | succ w ih => intro n; simp [le_bytes, ih]

theorem le_bytes_lt (width : Nat) : ∀ n, ∀ b ∈ le_bytes width n, b < 256 := by
  induction width with
  | zero => intro n b hb; simp [le_bytes] at hb
  | succ w ih =>
    intro n b hb
    simp only [le_bytes, List.mem_cons] at hb
    rcases hb with h | h
    · subst h; exact Nat.mod_lt _ (by norm_num)
    · exact ih _ b h

theorem from_le_le_bytes (width : Nat) : ∀ n, from_le (le_bytes width n) = n % 256 ^ width := by
  induction width with
  | zero => intro n; simp [le_bytes, from_le, Nat.mod_one]
  | succ w ih =>
    intro n
    rw [pow_succ']
    simp only [le_bytes, from_le, ih]
    exact (Nat.mod_mul).symm

theorem concatMap_append (f : α → List Nat) (l₁ l₂ : List α) :
    concatMap f (l₁ ++ l₂) = concatMap f l₁ ++ concatMap f l₂ := by
  induction l₁ with
  | nil => rfl
  | cons a l ih => simp [concatMap, ih]

theorem concatMap_reverse_map (f : α → List Nat) (l : List α) :
    concatMap f l.reverse = concatMap id ((l.map f).reverse) := by
  induction l with
  | nil => rfl
  | cons a l ih =>
    simp only [List.reverse_cons, List.map_cons, concatMap_append, ih]
    rfl

theorem concatMap_length (f : α → List Nat) (k : Nat) (l : List α)
    (h : ∀ a ∈ l, (f a).length = k) : (concatMap f l).length = k * l.length := by
  induction l with
  | nil => simp [concatMap]
  | cons a l ih =>
    simp only [concatMap, List.length_append, List.length_cons,
      h a (List.mem_cons_self a l), ih (fun b hb => h b (List.mem_cons_of_mem a hb))]
    ring

theorem take_append_of_length (a b : List Nat) (n : Nat) (h : a.length = n) :
    (a ++ b).take n = a := by
  rw [← h, List.take_left]

theorem drop_append_of_length (a b : List Nat) (n : Nat) (h : a.length = n) :
    (a ++ b).drop n = b := by
  rw [← h, List.drop_left]

theorem b64inv_b64char : ∀ s, s < 64 → b64inv (b64char s) = s := by decide

theorem b64char_ne_pad : ∀ s, s < 64 → b64char s ≠ 61 := by decide

theorem b64decode_b64encode (bs : List Nat) (hb : ∀ b ∈ bs, b < 256) :
    b64decode (b64encode bs) = bs := by
  suffices key : ∀ n (l : List Nat), l.length ≤ n → (∀ b ∈ l, b < 256) →
      b64decode (b64encode l) = l by
    exact key bs.length bs le_rfl hb
  intro n
  induction n with
  | zero =>
    intro l hl _
    rw [List.eq_nil_of_length_eq_zero (Nat.le_zero.mp hl)]
    rfl
  | succ n ih =>
    intro l hl h
    rcases l with _ | ⟨a, _ | ⟨b, _ | ⟨c, rest⟩⟩⟩
    · rfl
    · have ha : a < 256 := h a (by simp)
      simp only [b64encode, b64decode]
      rw [b64inv_b64char _ (show a / 4 < 64 by omega),
        b64inv_b64char _ (show a % 4 * 16 < 64 by omega)]
      simp
      omega
    · have ha : a < 256 := h a (by simp)
      have hb' : b < 256 := h b (by simp)
      simp only [b64encode, b64decode]
      rw [if_neg (b64char_ne_pad _ (show b % 16 * 4 < 64 by omega))]
      rw [b64inv_b64char _ (show a / 4 < 64 by omega),
        b64inv_b64char _ (show a % 4 * 16 + b / 16 < 64 by omega),
        b64inv_b64char _ (show b % 16 * 4 < 64 by omega)]
      simp
      omega
    · have ha : a < 256 := h a (by simp)
      have hb' : b < 256 := h b (by simp)
      have hc : c < 256 := h c (by simp)
      simp only [b64encode, b64decode]
      rw [if_neg (b64char_ne_pad _ (show b % 16 * 4 + c / 64 < 64 by omega)),
        if_neg (b64char_ne_pad _ (show c % 64 < 64 by omega))]
      rw [b64inv_b64char _ (show a / 4 < 64 by omega),
        b64inv_b64char _ (show a % 4 * 16 + b / 16 < 64 by omega),
        b64inv_b64char _ (show b % 16 * 4 + c / 64 < 64 by omega),
        b64inv_b64char _ (show c % 64 < 64 by omega)]
      have e1 : a / 4 * 4 + (a % 4 * 16 + b / 16) / 16 = a := by omega
      have e2 : (a % 4 * 16 + b / 16) % 16 * 16 + (b % 16 * 4 + c / 64) / 4 = b := by omega
      have e3 : (b % 16 * 4 + c / 64) % 4 * 64 + c % 64 = c := by omega
      have hrest : rest.length ≤ n := by
        simp only [List.length_cons] at hl; omega
      rw [e1, e2, e3, ih rest hrest (fun x hx => h x (by simp [hx]))]

theorem meshValid_parts (m : Mesh) (h : meshValid m = true) :
    (∃ d, m.uv_active = some d ∧ d.length = m.loops.length) ∧
    (∀ t ∈ m.loop_triangles, t.loops.length = 3 ∧ ∀ i ∈ t.loops, i < m.loops.length) ∧
    (∀ l ∈ m.loops, l.vertex_index < m.vertices.length) := by
  simp only [meshValid, Bool.and_eq_true, List.all_eq_true, beq_iff_eq,
    decide_eq_true_eq] at h
  obtain ⟨⟨h1, h2⟩, h3⟩ := h
  refine ⟨?_, h2, h3⟩
  cases huv : m.uv_active with
  | none => rw [huv] at h1; simp at h1
  | some d => rw [huv] at h1; exact ⟨d, rfl, by simpa using h1⟩

theorem objOk_parts (o : Obj) (h : objOk o = true) :
    ∃ m, o.resolve = .ok m ∧ meshValid m = true ∧
      m.loop_triangles.length < 2 ^ 16 ∧ o.name.length < 2 ^ 32 := by
  rcases hres : o.resolve with _ | _ | m
  · simp [objOk, hres] at h
  · simp [objOk, hres] at h
  · simp only [objOk, hres, Bool.and_eq_true, decide_eq_true_eq] at h
    exact ⟨m, rfl, h.1.1, h.1.2, h.2⟩

theorem body_loop_ok (m : Mesh) (i : Nat) (h : meshValid m = true)
    (hi : i < m.loops.length) :
    ∃ bs, body_loop m i = .ok bs ∧ bs.length = 44 := by
  obtain ⟨⟨d, hd, hdl⟩, _, hvert⟩ := meshValid_parts m h
  have h1 : m.loops[i]? = some m.loops[i] := List.getElem?_eq_getElem hi
  have hv : m.loops[i].vertex_index < m.vertices.length :=
    hvert m.loops[i] (List.getElem_mem hi)
  have h2 : m.vertices[m.loops[i].vertex_index]? =
      some m.vertices[m.loops[i].vertex_index] := List.getElem?_eq_getElem hv
  have hid : i < d.length := by omega
  have h4 : d[i]? = some d[i] := List.getElem?_eq_getElem hid
  have hbody : body_loop m i = .ok
      (pack_f m.vertices[m.loops[i].vertex_index].co_x ++
       pack_f m.vertices[m.loops[i].vertex_index].co_y ++
       pack_f m.vertices[m.loops[i].vertex_index].co_z ++
       pack_f m.vertices[m.loops[i].vertex_index].normal_x ++
       pack_f m.vertices[m.loops[i].vertex_index].normal_y ++
       pack_f m.vertices[m.loops[i].vertex_index].normal_z ++
       pack_f d[i].x ++ pack_f d[i].y ++
       pack_f m.loops[i].tangent_0 ++ pack_f m.loops[i].tangent_1 ++
       pack_f m.loops[i].tangent_2) := by
    simp only [body_loop, h1, h2, hd, h4]
  exact ⟨_, hbody, by simp [pack_f, le_bytes_length]⟩

theorem loopBytes_spec (m : Mesh) (i : Nat) (h : meshValid m = true)
    (hi : i < m.loops.length) :
    body_loop m i = .ok (loopBytes m i) ∧ (loopBytes m i).length = 44 := by
  obtain ⟨bs, hb, hl⟩ := body_loop_ok m i h hi
  have he : loopBytes m i = bs := by simp [loopBytes, hb]
  rw [he]
  exact ⟨hb, hl⟩

theorem body_indices_ok (m : Mesh) (idxs : List Nat)
    (h : ∀ i ∈ idxs, body_loop m i = .ok (loopBytes m i)) :
    body_indices m idxs = ⟨concatMap (loopBytes m) idxs, none⟩ := by
  induction idxs with
  | nil => rfl
  | cons i rest ih =>
    simp only [body_indices, h i (List.mem_cons_self i rest),
      ih (fun j hj => h j (List.mem_cons_of_mem i hj)), concatMap]

theorem body_triangles_ok (m : Mesh) (ts : List LoopTriangle)
    (h : ∀ t ∈ ts, ∀ i ∈ t.loops, body_loop m i = .ok (loopBytes m i)) :
    body_triangles m ts = ⟨concatMap (triBytes m) ts, none⟩ := by
  induction ts with
  | nil => rfl
  | cons t rest ih =>
    have h1 : body_indices m t.loops.reverse =
        ⟨concatMap (loopBytes m) t.loops.reverse, none⟩ :=
      body_indices_ok m _ (fun i hi =>
        h t (List.mem_cons_self t rest) i (List.mem_reverse.mp hi))
    simp only [body_triangles, h1,
      ih (fun t' ht' => h t' (List.mem_cons_of_mem t ht')), triBytes, concatMap]

theorem write_objects_ok (objs : List Obj) (h : ∀ o ∈ objs, objOk o = true) :
    write_objects objs = ⟨concatMap objBodyBlock objs, none⟩ := by
  induction objs with
  | nil => rfl
  | cons o rest ih =>
    obtain ⟨m, hres, hv, _, _⟩ := objOk_parts o (h o (List.mem_cons_self o rest))
    have htri := (meshValid_parts m hv).2.1
    have hbt : body_triangles m m.loop_triangles =
        ⟨concatMap (triBytes m) m.loop_triangles, none⟩ :=
      body_triangles_ok m _ (fun t ht i hi =>
        (loopBytes_spec m i hv ((htri t ht).2 i hi)).1)
    simp only [write_objects, hres, hbt,
      ih (fun o' ho' => h o' (List.mem_cons_of_mem o ho')), concatMap, objBodyBlock]

theorem header_objs_ok (objs : List Obj) (h : ∀ o ∈ objs, objOk o = true) :
    header_objs objs = ⟨concatMap objMetaBlock objs, [], none⟩ := by
  induction objs with
  | nil => rfl
  | cons o rest ih =>
    obtain ⟨m, hres, _, htl, hnl⟩ := objOk_parts o (h o (List.mem_cons_self o rest))
    have hw : ¬ (2 ^ 16 ≤ m.loop_triangles.length) := by omega
    have hp1 : pack_u 4 o.name.length = .ok (le_bytes 4 o.name.length) := by
      unfold pack_u
      rw [if_pos (by omega : o.name.length < 256 ^ 4)]
    have hp2 : pack_u 2 m.loop_triangles.length =
        .ok (le_bytes 2 m.loop_triangles.length) := by
      unfold pack_u
      rw [if_pos (by omega : m.loop_triangles.length < 256 ^ 2)]
    simp only [header_objs, hres, if_neg hw, hp1, hp2,
      ih (fun o' ho' => h o' (List.mem_cons_of_mem o ho')), concatMap,
      objMetaBlock, objNumTris, List.nil_append, List.append_assoc]

theorem write_header_ok (objs : List Obj) (h : ∀ o ∈ objs, objOk o = true)
    (hcnt : objs.countP (fun o => o.type == "MESH") < 2 ^ 32) :
    write_header objs =
      ⟨version_bytes ++ options_bytes ++
        le_bytes 4 (objs.countP (fun o => o.type == "MESH")) ++
        concatMap objMetaBlock objs, [], none⟩ := by
  have hp : pack_u 4 (objs.countP (fun o => o.type == "MESH")) =
      .ok (le_bytes 4 (objs.countP (fun o => o.type == "MESH"))) := by
    unfold pack_u
    rw [if_pos (by omega : objs.countP (fun o => o.type == "MESH") < 256 ^ 4)]
  simp only [write_header, hp, header_objs_ok objs h]

theorem header_objs_stop (pre post : List Obj) (failObj : Obj)
    (h : ∀ o ∈ pre, objOk o = true)
    (hf : failObj.resolve = .raisesRuntimeError ∨ failObj.resolve = .noMesh) :
    header_objs (pre ++ failObj :: post) = ⟨concatMap objMetaBlock pre, [], none⟩ := by
  induction pre with
  | nil => rcases hf with hf | hf <;> simp [header_objs, hf, concatMap]
  | cons o rest ih =>
    obtain ⟨m, hres, _, htl, hnl⟩ := objOk_parts o (h o (List.mem_cons_self o rest))
    have hw : ¬ (2 ^ 16 ≤ m.loop_triangles.length) := by omega
    have hp1 : pack_u 4 o.name.length = .ok (le_bytes 4 o.name.length) := by
      unfold pack_u
      rw [if_pos (by omega : o.name.length < 256 ^ 4)]
    have hp2 : pack_u 2 m.loop_triangles.length =
        .ok (le_bytes 2 m.loop_triangles.length) := by
      unfold pack_u
      rw [if_pos (by omega : m.loop_triangles.length < 256 ^ 2)]
    simp only [List.cons_append, List.append_eq, header_objs, hres, if_neg hw, hp1, hp2,
      ih (fun o' ho' => h o' (List.mem_cons_of_mem o ho')), concatMap,
      objMetaBlock, objNumTris, List.append_assoc, List.nil_append]

theorem write_objects_stop (pre post : List Obj) (failObj : Obj)
    (h : ∀ o ∈ pre, objOk o = true)
    (hf : failObj.resolve = .raisesRuntimeError ∨ failObj.resolve = .noMesh) :
    write_objects (pre ++ failObj :: post) = ⟨concatMap objBodyBlock pre, none⟩ := by
  induction pre with
  | nil => rcases hf with hf | hf <;> simp [write_objects, hf, concatMap]
  | cons o rest ih =>
    obtain ⟨m, hres, hv, _, _⟩ := objOk_parts o (h o (List.mem_cons_self o rest))
    have htri := (meshValid_parts m hv).2.1
    have hbt : body_triangles m m.loop_triangles =
        ⟨concatMap (triBytes m) m.loop_triangles, none⟩ :=
      body_triangles_ok m _ (fun t ht i hi =>
        (loopBytes_spec m i hv ((htri t ht).2 i hi)).1)
    simp only [List.cons_append, List.append_eq, write_objects, hres, hbt,
      ih (fun o' ho' => h o' (List.mem_cons_of_mem o ho')), concatMap, objBodyBlock]

theorem patch_lzma_take5 (lz : List Nat) (size : Nat) (h : 13 ≤ lz.length) :
    (patch_lzma lz size).take 5 = lz.take 5 := by
  unfold patch_lzma
  rw [List.append_assoc]
  exact take_append_of_length _ _ _ (by simp; omega)

theorem patch_lzma_field (lz : List Nat) (size : Nat) (h : 13 ≤ lz.length) :
    ((patch_lzma lz size).drop 5).take 8 = le_bytes 8 size := by
  unfold patch_lzma
  rw [List.append_assoc, drop_append_of_length _ _ _ (by simp; omega)]
  exact take_append_of_length _ _ _ (le_bytes_length 8 size)

theorem patch_lzma_drop13 (lz : List Nat) (size : Nat) (h : 13 ≤ lz.length) :
    (patch_lzma lz size).drop 13 = lz.drop 13 := by
  unfold patch_lzma
  exact drop_append_of_length _ _ _ (by simp [le_bytes_length]; omega)

theorem patch_lzma_mem (lz : List Nat) (size : Nat) (hlz : ∀ b ∈ lz, b < 256) :
    ∀ b ∈ patch_lzma lz size, b < 256 := by
  intro b hb
  unfold patch_lzma at hb
  rcases List.mem_append.mp hb with h' | h'
  · rcases List.mem_append.mp h' with h2 | h2
    · exact hlz b (List.take_subset 5 lz h2)
    · exact le_bytes_lt 8 size b h2
  · exact hlz b (List.drop_subset 13 lz h')

theorem write_sfmesh_packed (lzc : List Nat → List Nat) (objs : List Obj)
    (herr : (write_sfmesh_raw objs).err = none)
    (hsize : (write_sfmesh_raw objs).bytes.length < 2 ^ 64) :
    write_sfmesh lzc objs false =
      .ok (return_quote ++
        b64encode (patch_lzma (lzc (write_sfmesh_raw objs).bytes)
          (write_sfmesh_raw objs).bytes.length) ++ [34]) := by
  have hbytes : int_to_bytes 8 (write_sfmesh_raw objs).bytes.length =
      .ok (le_bytes 8 (write_sfmesh_raw objs).bytes.length) := by
    unfold int_to_bytes
    rw [if_pos (by omega : (write_sfmesh_raw objs).bytes.length < 256 ^ 8)]
  simp only [write_sfmesh, herr, hbytes, Bool.false_eq_true, if_false, patch_lzma]

theorem write_sfmesh_raw_of_header_err (objs : List Obj) (bytes : List Nat)
    (w : List (List Nat)) (e : PyErr)
    (h : write_header objs = ⟨bytes, w, some e⟩) :
    write_sfmesh_raw objs = ⟨bytes, w, some e⟩ := by
  unfold write_sfmesh_raw
  rw [h]

theorem write_sfmesh_of_raw_err (lzc : List Nat → List Nat) (objs : List Obj)
    (b : Bool) (e : PyErr) (h : (write_sfmesh_raw objs).err = some e) :
    write_sfmesh lzc objs b = .error e := by
  simp only [write_sfmesh, h]

theorem le_bytes_four (n : Nat) : le_bytes 4 n =
    [n % 256, n / 256 % 256, n / 256 / 256 % 256, n / 256 / 256 / 256 % 256] := rfl

theorem le_bytes_two (n : Nat) : le_bytes 2 n = [n % 256, n / 256 % 256] := rfl

theorem fields32_cons (x : Nat) (rest : List Nat) (k : Nat) :
    fields32 (le_bytes 4 x ++ rest) (k + 1) = x % 256 ^ 4 :: fields32 rest k := by
  simp only [fields32, take_append_of_length _ _ _ (le_bytes_length 4 x),
    drop_append_of_length _ _ _ (le_bytes_length 4 x), from_le_le_bytes]

theorem fields32_single (x : Nat) : fields32 (le_bytes 4 x) 1 = [x % 256 ^ 4] := by
  rw [← List.append_nil (le_bytes 4 x), fields32_cons]
  rfl

theorem triBytes_length (m : Mesh) (t : LoopTriangle) (hv : meshValid m = true)
    (h3 : t.loops.length = 3) (hin : ∀ i ∈ t.loops, i < m.loops.length) :
    (triBytes m t).length = 132 := by
  unfold triBytes
  rw [concatMap_length (loopBytes m) 44 _ (fun i hi =>
    (loopBytes_spec m i hv (hin i (List.mem_reverse.mp hi))).2)]
  simp [h3]

theorem objBodyBlock_length (o : Obj) (m : Mesh) (hres : o.resolve = .ok m)
    (hv : meshValid m = true) :
    (objBodyBlock o).length = 132 * m.loop_triangles.length := by
  unfold objBodyBlock
  rw [hres]
  exact concatMap_length _ 132 _ (fun t ht =>
    triBytes_length m t hv ((meshValid_parts m hv).2.1 t ht).1
      ((meshValid_parts m hv).2.1 t ht).2)

theorem objCountField_of_header (cnt : Nat) (rest : List Nat) (hcnt : cnt < 2 ^ 32) :
    objCountField (version_bytes ++ options_bytes ++ le_bytes 4 cnt ++ rest) = cnt := by
  unfold objCountField
  rw [List.append_assoc (version_bytes ++ options_bytes),
    drop_append_of_length (version_bytes ++ options_bytes) _ 7 rfl,
    take_append_of_length _ _ _ (le_bytes_length 4 cnt), from_le_le_bytes]
  omega

theorem header_objs_overflow (o : Obj) (m : Mesh) (rest : List Obj)
    (hres : o.resolve = .ok m) (hbig : 2 ^ 16 ≤ m.loop_triangles.length)
    (hnl : o.name.length < 2 ^ 32) :
    header_objs (o :: rest) =
      ⟨le_bytes 4 o.name.length ++ o.name, [o.name], some .structError⟩ := by
  have hp1 : pack_u 4 o.name.length = .ok (le_bytes 4 o.name.length) := by
    unfold pack_u
    rw [if_pos (by omega : o.name.length < 256 ^ 4)]
  have hp2 : pack_u 2 m.loop_triangles.length = .error .structError := by
    unfold pack_u
    rw [if_neg (by omega : ¬ m.loop_triangles.length < 256 ^ 2)]
  simp only [header_objs, hres, if_pos hbig, hp1, hp2]

theorem header_objs_one_ok (o : Obj) (m : Mesh)
    (hres : o.resolve = .ok m) (htl : m.loop_triangles.length < 2 ^ 16)
    (hnl : o.name.length < 2 ^ 32) :
    header_objs [o] = ⟨le_bytes 4 o.name.length ++ o.name ++
      le_bytes 2 m.loop_triangles.length, [], none⟩ := by
  have hw : ¬ (2 ^ 16 ≤ m.loop_triangles.length) := by omega
  have hp1 : pack_u 4 o.name.length = .ok (le_bytes 4 o.name.length) := by
    unfold pack_u
    rw [if_pos (by omega : o.name.length < 256 ^ 4)]
  have hp2 : pack_u 2 m.loop_triangles.length =
      .ok (le_bytes 2 m.loop_triangles.length) := by
    unfold pack_u
    rw [if_pos (by omega : m.loop_triangles.length < 256 ^ 2)]
  simp only [header_objs, hres, if_neg hw, hp1, hp2, List.append_nil]

/-- C3: in packed mode, for every raw buffer (produced without an uncaught
exception), the file payload is the compressed stream with bytes 5-12
replaced by the buffer's byte length little-endian 64-bit, bytes 0-4 and
13 onward unchanged; base64-decoding the payload and reading the 8 bytes
at offset 5 yields exactly the raw buffer's length. -/
theorem size_patch_claim3 (lzc : List Nat → List Nat) (objs : List Obj)
    (herr : (write_sfmesh_raw objs).err = none)
    (hlz13 : 13 ≤ (lzc (write_sfmesh_raw objs).bytes).length)
    (hlzb : ∀ b ∈ lzc (write_sfmesh_raw objs).bytes, b < 256)
    (hsize : (write_sfmesh_raw objs).bytes.length < 2 ^ 64) :
    write_sfmesh lzc objs false =
      .ok (return_quote ++
        b64encode (patch_lzma (lzc (write_sfmesh_raw objs).bytes)
          (write_sfmesh_raw objs).bytes.length) ++ [34]) ∧
    (patch_lzma (lzc (write_sfmesh_raw objs).bytes)
      (write_sfmesh_raw objs).bytes.length).take 5 =
      (lzc (write_sfmesh_raw objs).bytes).take 5 ∧
    ((patch_lzma (lzc (write_sfmesh_raw objs).bytes)
      (write_sfmesh_raw objs).bytes.length).drop 5).take 8 =
      le_bytes 8 (write_sfmesh_raw objs).bytes.length ∧
    (patch_lzma (lzc (write_sfmesh_raw objs).bytes)
      (write_sfmesh_raw objs).bytes.length).drop 13 =
      (lzc (write_sfmesh_raw objs).bytes).drop 13 ∧
    from_le (((b64decode (b64encode (patch_lzma (lzc (write_sfmesh_raw objs).bytes)
      (write_sfmesh_raw objs).bytes.length))).drop 5).take 8) =
      (write_sfmesh_raw objs).bytes.length := by
  refine ⟨write_sfmesh_packed lzc objs herr hsize, patch_lzma_take5 _ _ hlz13,
    patch_lzma_field _ _ hlz13, patch_lzma_drop13 _ _ hlz13, ?_⟩
  rw [b64decode_b64encode _ (patch_lzma_mem _ _ hlzb), patch_lzma_field _ _ hlz13,
    from_le_le_bytes]
  omega

/-- C3 witness: the empty export (an 11-byte raw buffer) under the sample
compressor satisfies every hypothesis and the conclusion. -/
theorem size_patch_claim3_witness :
    ((write_sfmesh_raw []).err = none ∧
     13 ≤ (lzcTest (write_sfmesh_raw []).bytes).length ∧
     (∀ b ∈ lzcTest (write_sfmesh_raw []).bytes, b < 256) ∧
     (write_sfmesh_raw []).bytes.length < 2 ^ 64) ∧
    (write_sfmesh lzcTest [] false =
      .ok (return_quote ++
        b64encode (patch_lzma (lzcTest (write_sfmesh_raw []).bytes)
          (write_sfmesh_raw []).bytes.length) ++ [34]) ∧
    (patch_lzma (lzcTest (write_sfmesh_raw []).bytes)
      (write_sfmesh_raw []).bytes.length).take 5 =
      (lzcTest (write_sfmesh_raw []).bytes).take 5 ∧
    ((patch_lzma (lzcTest (write_sfmesh_raw []).bytes)
      (write_sfmesh_raw []).bytes.length).drop 5).take 8 =
      le_bytes 8 (write_sfmesh_raw []).bytes.length ∧
    (patch_lzma (lzcTest (write_sfmesh_raw []).bytes)
      (write_sfmesh_raw []).bytes.length).drop 13 =
      (lzcTest (write_sfmesh_raw []).bytes).drop 13 ∧
    from_le (((b64decode (b64encode (patch_lzma (lzcTest (write_sfmesh_raw []).bytes)
      (write_sfmesh_raw []).bytes.length))).drop 5).take 8) =
      (write_sfmesh_raw []).bytes.length) :=
  ⟨⟨by decide, by decide, by decide, by decide⟩,
    size_patch_claim3 lzcTest [] (by decide) (by decide) (by decide) (by decide)⟩

/-- C4: in packed mode the destination file holds exactly the eight bytes
of `return "` (whose final byte is the opening double quote, ASCII 34),
the base64 text of the patched compressed stream, and a closing double
quote, in that order and nothing else. -/
theorem packed_shape_claim4 (lzc : List Nat → List Nat) (objs : List Obj)
    (herr : (write_sfmesh_raw objs).err = none)
    (hsize : (write_sfmesh_raw objs).bytes.length < 2 ^ 64) :
    write_sfmesh lzc objs false =
      .ok ([114, 101, 116, 117, 114, 110, 32, 34] ++
        b64encode (patch_lzma (lzc (write_sfmesh_raw objs).bytes)
          (write_sfmesh_raw objs).bytes.length) ++ [34]) ∧
    ([114, 101, 116, 117, 114, 110, 32, 34] : List Nat).length = 8 := by
  refine ⟨?_, rfl⟩
  have h := write_sfmesh_packed lzc objs herr hsize
  simpa [return_quote] using h

/-- C4 witness: the empty export under the sample compressor. -/
theorem packed_shape_claim4_witness :
    ((write_sfmesh_raw []).err = none ∧ (write_sfmesh_raw []).bytes.length < 2 ^ 64) ∧
    (write_sfmesh lzcTest [] false =
      .ok ([114, 101, 116, 117, 114, 110, 32, 34] ++
        b64encode (patch_lzma (lzcTest (write_sfmesh_raw []).bytes)
          (write_sfmesh_raw []).bytes.length) ++ [34]) ∧
    ([114, 101, 116, 117, 114, 110, 32, 34] : List Nat).length = 8) :=
  ⟨⟨by decide, by decide⟩, packed_shape_claim4 lzcTest [] (by decide) (by decide)⟩

/-- C5: one encoded vertex appends exactly 44 bytes: three position
floats, three normal floats, two UV floats, three tangent floats, each
four bytes little-endian in that fixed order, and reading the eleven
fields back yields exactly the input bit patterns (no validation or
alteration). -/
theorem vertex_encoding_claim5 (m : Mesh) (i : Nat) (loop : Loop)
    (vertex : MeshVertex) (uv_data : List UVCoord) (uv : UVCoord)
    (h1 : m.loops[i]? = some loop)
    (h2 : m.vertices[loop.vertex_index]? = some vertex)
    (h3 : m.uv_active = some uv_data)
    (h4 : uv_data[i]? = some uv)
    (hb : vertex.co_x < 2 ^ 32 ∧ vertex.co_y < 2 ^ 32 ∧ vertex.co_z < 2 ^ 32 ∧
          vertex.normal_x < 2 ^ 32 ∧ vertex.normal_y < 2 ^ 32 ∧
          vertex.normal_z < 2 ^ 32 ∧ uv.x < 2 ^ 32 ∧ uv.y < 2 ^ 32 ∧
          loop.tangent_0 < 2 ^ 32 ∧ loop.tangent_1 < 2 ^ 32 ∧
          loop.tangent_2 < 2 ^ 32) :
    body_loop m i = .ok
      (pack_f vertex.co_x ++ pack_f vertex.co_y ++ pack_f vertex.co_z ++
       pack_f vertex.normal_x ++ pack_f vertex.normal_y ++ pack_f vertex.normal_z ++
       pack_f uv.x ++ pack_f uv.y ++
       pack_f loop.tangent_0 ++ pack_f loop.tangent_1 ++ pack_f loop.tangent_2) ∧
    (pack_f vertex.co_x ++ pack_f vertex.co_y ++ pack_f vertex.co_z ++
     pack_f vertex.normal_x ++ pack_f vertex.normal_y ++ pack_f vertex.normal_z ++
     pack_f uv.x ++ pack_f uv.y ++
     pack_f loop.tangent_0 ++ pack_f loop.tangent_1 ++
     pack_f loop.tangent_2).length = 44 ∧
    decodeVertex
      (pack_f vertex.co_x ++ pack_f vertex.co_y ++ pack_f vertex.co_z ++
       pack_f vertex.normal_x ++ pack_f vertex.normal_y ++ pack_f vertex.normal_z ++
       pack_f uv.x ++ pack_f uv.y ++
       pack_f loop.tangent_0 ++ pack_f loop.tangent_1 ++ pack_f loop.tangent_2) =
      [vertex.co_x, vertex.co_y, vertex.co_z,
       vertex.normal_x, vertex.normal_y, vertex.normal_z,
       uv.x, uv.y, loop.tangent_0, loop.tangent_1, loop.tangent_2] := by
  obtain ⟨b1, b2, b3, b4, b5, b6, b7, b8, b9, b10, b11⟩ := hb
  refine ⟨?_, ?_, ?_⟩
  · simp only [body_loop, h1, h2, h3, h4]
  · simp [pack_f, le_bytes_length]
  · unfold decodeVertex
    simp only [pack_f, List.append_assoc]
    rw [fields32_cons, fields32_cons, fields32_cons, fields32_cons, fields32_cons,
      fields32_cons, fields32_cons, fields32_cons, fields32_cons, fields32_cons,
      fields32_single]
    rw [Nat.mod_eq_of_lt (show vertex.co_x < 256 ^ 4 by omega),
      Nat.mod_eq_of_lt (show vertex.co_y < 256 ^ 4 by omega),
      Nat.mod_eq_of_lt (show vertex.co_z < 256 ^ 4 by omega),
      Nat.mod_eq_of_lt (show vertex.normal_x < 256 ^ 4 by omega),
      Nat.mod_eq_of_lt (show vertex.normal_y < 256 ^ 4 by omega),
      Nat.mod_eq_of_lt (show vertex.normal_z < 256 ^ 4 by omega),
      Nat.mod_eq_of_lt (show uv.x < 256 ^ 4 by omega),
      Nat.mod_eq_of_lt (show uv.y < 256 ^ 4 by omega),
      Nat.mod_eq_of_lt (show loop.tangent_0 < 256 ^ 4 by omega),
      Nat.mod_eq_of_lt (show loop.tangent_1 < 256 ^ 4 by omega),
      Nat.mod_eq_of_lt (show loop.tangent_2 < 256 ^ 4 by omega)]

/-- C5 witness: the first loop of the sample mesh. -/
theorem vertex_encoding_claim5_witness :
    (sampleMesh.loops[0]? = some ⟨0, 900, 901, 902⟩ ∧
     sampleMesh.vertices[(0 : Nat)]? = some ⟨100, 101, 102, 103, 104, 105⟩ ∧
     sampleMesh.uv_active = some [⟨800, 801⟩, ⟨810, 811⟩, ⟨820, 821⟩] ∧
     ([⟨800, 801⟩, ⟨810, 811⟩, ⟨820, 821⟩] : List UVCoord)[0]? = some ⟨800, 801⟩) ∧
    body_loop sampleMesh 0 = .ok
      (pack_f 100 ++ pack_f 101 ++ pack_f 102 ++ pack_f 103 ++ pack_f 104 ++
       pack_f 105 ++ pack_f 800 ++ pack_f 801 ++ pack_f 900 ++ pack_f 901 ++
       pack_f 902) ∧
    (pack_f 100 ++ pack_f 101 ++ pack_f 102 ++ pack_f 103 ++ pack_f 104 ++
     pack_f 105 ++ pack_f 800 ++ pack_f 801 ++ pack_f 900 ++ pack_f 901 ++
     pack_f 902).length = 44 ∧
    decodeVertex
      (pack_f 100 ++ pack_f 101 ++ pack_f 102 ++ pack_f 103 ++ pack_f 104 ++
       pack_f 105 ++ pack_f 800 ++ pack_f 801 ++ pack_f 900 ++ pack_f 901 ++
       pack_f 902) = [100, 101, 102, 103, 104, 105, 800, 801, 900, 901, 902] :=
  ⟨⟨by decide, by decide, by decide, by decide⟩,
    vertex_encoding_claim5 sampleMesh 0 ⟨0, 900, 901, 902⟩
      ⟨100, 101, 102, 103, 104, 105⟩ [⟨800, 801⟩, ⟨810, 811⟩, ⟨820, 821⟩]
      ⟨800, 801⟩ (by decide) (by decide) (by decide) (by decide)
      (by decide)⟩

/-- C6: the bytes one triangle contributes to the body stream are the
per-loop vertex encodings joined in the exact reverse of the triangle's
input loop order. -/
theorem triangle_winding_claim6 (m : Mesh) (t : LoopTriangle)
    (h : ∀ i ∈ t.loops, loopOk m i = true) :
    (body_triangles m [t]).err = none ∧
    (body_triangles m [t]).bytes =
      concatMap id ((t.loops.map (loopBytes m)).reverse) := by
  have hok : ∀ i ∈ t.loops, body_loop m i = .ok (loopBytes m i) := by
    intro i hi
    have hl := h i hi
    unfold loopOk at hl
    rcases e : body_loop m i with err | bs
    · rw [e] at hl; simp at hl
    · simp [loopBytes, e]
  have h1 : body_indices m t.loops.reverse =
      ⟨concatMap (loopBytes m) t.loops.reverse, none⟩ :=
    body_indices_ok m _ (fun i hi => hok i (List.mem_reverse.mp hi))
  have hbt : body_triangles m [t] =
      ⟨concatMap (loopBytes m) t.loops.reverse, none⟩ := by
    simp only [body_triangles, h1, List.append_nil]
  rw [hbt, concatMap_reverse_map]
  exact ⟨rfl, rfl⟩

/-- C6 witness: the sample triangle over the sample mesh. -/
theorem triangle_winding_claim6_witness :
    (∀ i ∈ sampleTri.loops, loopOk sampleMesh i = true) ∧
    ((body_triangles sampleMesh [sampleTri]).err = none ∧
     (body_triangles sampleMesh [sampleTri]).bytes =
       concatMap id ((sampleTri.loops.map (loopBytes sampleMesh)).reverse)) :=
  ⟨by decide, triangle_winding_claim6 sampleMesh sampleTri (by decide)⟩

/-- C2 counterexample: a `"CURVE"`-typed object whose mesh resolution
succeeds is NOT excluded from the per-object iteration: both passes
complete without error, the count field reads 0, yet the header loop
emits one full metadata block (name length 1, name byte 65, triangle
count 0), so the count does not equal the number of blocks. -/
theorem header_count_claim2_counterexample :
    curveObjC2.resolve = .ok curveMeshC2 ∧
    curveObjC2.type ≠ "MESH" ∧
    (write_header [curveObjC2]).err = none ∧
    (write_objects [curveObjC2]).err = none ∧
    objCountField (write_header [curveObjC2]).bytes = 0 ∧
    (header_objs [curveObjC2]).bytes = [1, 0, 0, 0, 65, 0, 0] := by
  decide

/-- C2 (amended): non-`"MESH"` objects are excluded from the 32-bit count
but not from iteration; when every object in the list has type `"MESH"`
and every object is processed without incident, the count field equals the
list length, which is exactly the number of per-object metadata blocks and
of per-object body blocks. -/
theorem header_count_claim2 (objs : List Obj)
    (hT : ∀ o ∈ objs, o.type = "MESH")
    (hOk : ∀ o ∈ objs, objOk o = true)
    (hlen : objs.length < 2 ^ 32) :
    (write_header objs).err = none ∧
    (write_header objs).warnings = [] ∧
    (write_header objs).bytes =
      version_bytes ++ options_bytes ++ le_bytes 4 objs.length ++
        concatMap objMetaBlock objs ∧
    objCountField (write_header objs).bytes = objs.length ∧
    (write_objects objs).err = none ∧
    (write_objects objs).bytes = concatMap objBodyBlock objs := by
  have hcp : objs.countP (fun o => o.type == "MESH") = objs.length :=
    List.countP_eq_length.mpr (fun o ho => by simp [hT o ho])
  have hwh := write_header_ok objs hOk (by rw [hcp]; exact hlen)
  rw [hcp] at hwh
  have hwo := write_objects_ok objs hOk
  refine ⟨by rw [hwh], by rw [hwh], by rw [hwh], ?_, by rw [hwo], by rw [hwo]⟩
  rw [hwh]
  exact objCountField_of_header objs.length _ hlen

/-- C2 witness: a one-object all-mesh list. -/
theorem header_count_claim2_witness :
    ((∀ o ∈ [sampleObj], o.type = "MESH") ∧
     (∀ o ∈ [sampleObj], objOk o = true) ∧
     ([sampleObj] : List Obj).length < 2 ^ 32) ∧
    ((write_header [sampleObj]).err = none ∧
     (write_header [sampleObj]).warnings = [] ∧
     (write_header [sampleObj]).bytes =
       version_bytes ++ options_bytes ++ le_bytes 4 ([sampleObj] : List Obj).length ++
         concatMap objMetaBlock [sampleObj] ∧
     objCountField (write_header [sampleObj]).bytes = ([sampleObj] : List Obj).length ∧
     (write_objects [sampleObj]).err = none ∧
     (write_objects [sampleObj]).bytes = concatMap objBodyBlock [sampleObj]) :=
  ⟨⟨by decide, by decide, by decide⟩,
    header_count_claim2 [sampleObj] (by decide) (by decide) (by decide)⟩

/-- C10 counterexample: with a successfully resolving `"CURVE"` object
before a failing `"MESH"` object, the header pass writes a count of 1 and
exactly one complete metadata block (the curve's), so the declared count
does not exceed the number of blocks present. -/
theorem count_exceeds_claim10_counterexample :
    failObjC10.resolve = .raisesRuntimeError ∧
    (write_header [curveObjC10, failObjC10]).err = none ∧
    objCountField (write_header [curveObjC10, failObjC10]).bytes = 1 ∧
    (header_objs [curveObjC10, failObjC10]).bytes = objMetaBlock curveObjC10 ∧
    ¬ 1 < objCountField (write_header [curveObjC10, failObjC10]).bytes := by
  decide

/-- C10 (amended): the count is computed from the complete list before the
loop and counts every `"MESH"`-typed object; when every object in the list
is `"MESH"`-typed, every object before the first resolution failure is
processed without incident, and resolution fails at some object, the
written count strictly exceeds the number of metadata blocks (one per
object before the failure). -/
theorem count_exceeds_claim10 (pre post : List Obj) (failObj : Obj)
    (hOk : ∀ o ∈ pre, objOk o = true)
    (hT : ∀ o ∈ pre, o.type = "MESH")
    (hfT : failObj.type = "MESH")
    (hf : failObj.resolve = .raisesRuntimeError ∨ failObj.resolve = .noMesh)
    (hlen : (pre ++ failObj :: post).length < 2 ^ 32) :
    (write_header (pre ++ failObj :: post)).err = none ∧
    (write_header (pre ++ failObj :: post)).bytes =
      version_bytes ++ options_bytes ++
        le_bytes 4 ((pre ++ failObj :: post).countP (fun o => o.type == "MESH")) ++
        concatMap objMetaBlock pre ∧
    objCountField (write_header (pre ++ failObj :: post)).bytes =
      (pre ++ failObj :: post).countP (fun o => o.type == "MESH") ∧
    pre.length < (pre ++ failObj :: post).countP (fun o => o.type == "MESH") := by
  have hcnt : (pre ++ failObj :: post).countP (fun o => o.type == "MESH") < 2 ^ 32 :=
    lt_of_le_of_lt (List.countP_le_length _) hlen
  have hp : pack_u 4 ((pre ++ failObj :: post).countP (fun o => o.type == "MESH")) =
      .ok (le_bytes 4 ((pre ++ failObj :: post).countP (fun o => o.type == "MESH"))) := by
    unfold pack_u
    rw [if_pos (by omega)]
  have hho := header_objs_stop pre post failObj hOk hf
  have hwh : write_header (pre ++ failObj :: post) =
      ⟨version_bytes ++ options_bytes ++
        le_bytes 4 ((pre ++ failObj :: post).countP (fun o => o.type == "MESH")) ++
        concatMap objMetaBlock pre, [], none⟩ := by
    simp only [write_header, hp, hho]
  refine ⟨by rw [hwh], by rw [hwh], ?_, ?_⟩
  · rw [hwh]
    exact objCountField_of_header _ _ hcnt
  · rw [List.countP_append, List.countP_cons_of_pos _ _ (by simp [hfT]),
      List.countP_eq_length.mpr (fun o ho => by simp [hT o ho])]
    omega

/-- C10 witness: one valid mesh object before a failing mesh object. -/
theorem count_exceeds_claim10_witness :
    ((∀ o ∈ [sampleObj], objOk o = true) ∧
     (∀ o ∈ [sampleObj], o.type = "MESH") ∧
     failObjW.type = "MESH" ∧
     (failObjW.resolve = .raisesRuntimeError ∨ failObjW.resolve = .noMesh) ∧
     ([sampleObj] ++ failObjW :: []).length < 2 ^ 32) ∧
    ((write_header ([sampleObj] ++ failObjW :: [])).err = none ∧
     (write_header ([sampleObj] ++ failObjW :: [])).bytes =
       version_bytes ++ options_bytes ++
         le_bytes 4 (([sampleObj] ++ failObjW :: []).countP (fun o => o.type == "MESH")) ++
         concatMap objMetaBlock [sampleObj] ∧
     objCountField (write_header ([sampleObj] ++ failObjW :: [])).bytes =
       ([sampleObj] ++ failObjW :: []).countP (fun o => o.type == "MESH") ∧
     ([sampleObj] : List Obj).length <
       ([sampleObj] ++ failObjW :: []).countP (fun o => o.type == "MESH")) :=
  ⟨⟨by decide, by decide, by decide, Or.inr (by decide), by decide⟩,
    count_exceeds_claim10 [sampleObj] [] failObjW (by decide) (by decide)
      (by decide) (Or.inr (by decide)) (by decide)⟩

/-- C8 counterexample: when an object with 65536 triangles precedes the
failing object, the header pass does not stop silently at the failing
object: it aborts with an uncaught `struct.error` at the earlier object,
and nothing is compressed or written. -/
theorem silent_truncation_claim8_counterexample :
    failObjC8.resolve = .raisesRuntimeError ∧
    (write_header [bigObjC8, failObjC8]).err = some .structError ∧
    write_sfmesh lzcTest [bigObjC8, failObjC8] false = .error .structError := by
  have hbig : 2 ^ 16 ≤ bigMeshC8.loop_triangles.length := by
    have h' : bigMeshC8.loop_triangles = List.replicate (2 ^ 16) ⟨[]⟩ := rfl
    rw [h', List.length_replicate]
  have hho := header_objs_overflow bigObjC8 bigMeshC8 [failObjC8] rfl hbig
    (by norm_num [bigObjC8])
  have hp : pack_u 4 ([bigObjC8, failObjC8].countP (fun o => o.type == "MESH")) =
      .ok (le_bytes 4 2) := by
    have h' : [bigObjC8, failObjC8].countP (fun o => o.type == "MESH") = 2 := by
      rfl
    rw [h']
    unfold pack_u
    rw [if_pos (by norm_num)]
  have hwh : write_header [bigObjC8, failObjC8] =
      ⟨version_bytes ++ options_bytes ++ le_bytes 4 2 ++
        (le_bytes 4 bigObjC8.name.length ++ bigObjC8.name),
       [bigObjC8.name], some .structError⟩ := by
    simp only [write_header, hp, hho]
  have hraw : write_sfmesh_raw [bigObjC8, failObjC8] =
      ⟨version_bytes ++ options_bytes ++ le_bytes 4 2 ++
        (le_bytes 4 bigObjC8.name.length ++ bigObjC8.name),
       [bigObjC8.name], some .structError⟩ :=
    write_sfmesh_raw_of_header_err _ _ _ _ hwh
  exact ⟨rfl, by rw [hwh],
    write_sfmesh_of_raw_err lzcTest _ false .structError (by rw [hraw])⟩

/-- C8 (amended): when every object before the first resolution failure is
processed without incident (in particular none overflows the 16-bit
triangle count), both passes stop at the failing object without raising:
the earlier objects' header and body data remain, nothing is written for
the failing or later objects, and the truncated buffer is still
compressed, patched, and written to the destination file. -/
theorem silent_truncation_claim8 (lzc : List Nat → List Nat)
    (pre post : List Obj) (failObj : Obj)
    (hOk : ∀ o ∈ pre, objOk o = true)
    (hf : failObj.resolve = .raisesRuntimeError ∨ failObj.resolve = .noMesh)
    (hcnt : (pre ++ failObj :: post).countP (fun o => o.type == "MESH") < 2 ^ 32)
    (hsize : (write_sfmesh_raw (pre ++ failObj :: post)).bytes.length < 2 ^ 64) :
    (write_sfmesh_raw (pre ++ failObj :: post)).err = none ∧
    (write_sfmesh_raw (pre ++ failObj :: post)).bytes =
      version_bytes ++ options_bytes ++
        le_bytes 4 ((pre ++ failObj :: post).countP (fun o => o.type == "MESH")) ++
        concatMap objMetaBlock pre ++ concatMap objBodyBlock pre ∧
    write_sfmesh lzc (pre ++ failObj :: post) false =
      .ok (return_quote ++
        b64encode (patch_lzma (lzc (write_sfmesh_raw (pre ++ failObj :: post)).bytes)
          (write_sfmesh_raw (pre ++ failObj :: post)).bytes.length) ++ [34]) := by
  have hp : pack_u 4 ((pre ++ failObj :: post).countP (fun o => o.type == "MESH")) =
      .ok (le_bytes 4 ((pre ++ failObj :: post).countP (fun o => o.type == "MESH"))) := by
    unfold pack_u
    rw [if_pos (by omega)]
  have hho := header_objs_stop pre post failObj hOk hf
  have hwh : write_header (pre ++ failObj :: post) =
      ⟨version_bytes ++ options_bytes ++
        le_bytes 4 ((pre ++ failObj :: post).countP (fun o => o.type == "MESH")) ++
        concatMap objMetaBlock pre, [], none⟩ := by
    simp only [write_header, hp, hho]
  have hwo := write_objects_stop pre post failObj hOk hf
  have hraw : write_sfmesh_raw (pre ++ failObj :: post) =
      ⟨version_bytes ++ options_bytes ++
        le_bytes 4 ((pre ++ failObj :: post).countP (fun o => o.type == "MESH")) ++
        concatMap objMetaBlock pre ++ concatMap objBodyBlock pre, [], none⟩ := by
    simp only [write_sfmesh_raw, hwh, hwo, List.append_assoc]
  exact ⟨by rw [hraw], by rw [hraw],
    write_sfmesh_packed lzc _ (by rw [hraw]) hsize⟩

set_option maxRecDepth 8000 in
/-- C8 witness: a valid object, then a failing object, then another
object; the truncated two-block-less buffer is still packed and written. -/
theorem silent_truncation_claim8_witness :
    ((∀ o ∈ [sampleObj], objOk o = true) ∧
     (failObjW.resolve = .raisesRuntimeError ∨ failObjW.resolve = .noMesh) ∧
     ([sampleObj] ++ failObjW :: [sampleObj]).countP (fun o => o.type == "MESH") < 2 ^ 32 ∧
     (write_sfmesh_raw ([sampleObj] ++ failObjW :: [sampleObj])).bytes.length < 2 ^ 64) ∧
    ((write_sfmesh_raw ([sampleObj] ++ failObjW :: [sampleObj])).err = none ∧
     (write_sfmesh_raw ([sampleObj] ++ failObjW :: [sampleObj])).bytes =
       version_bytes ++ options_bytes ++
         le_bytes 4 (([sampleObj] ++ failObjW :: [sampleObj]).countP
           (fun o => o.type == "MESH")) ++
         concatMap objMetaBlock [sampleObj] ++ concatMap objBodyBlock [sampleObj] ∧
     write_sfmesh lzcTest ([sampleObj] ++ failObjW :: [sampleObj]) false =
       .ok (return_quote ++
         b64encode (patch_lzma
           (lzcTest (write_sfmesh_raw ([sampleObj] ++ failObjW :: [sampleObj])).bytes)
           (write_sfmesh_raw ([sampleObj] ++ failObjW :: [sampleObj])).bytes.length) ++
         [34])) :=
  ⟨⟨by decide, Or.inr (by decide), by decide, by decide⟩,
    silent_truncation_claim8 lzcTest [sampleObj] [sampleObj] failObjW
      (by decide) (Or.inr (by decide)) (by decide) (by decide)⟩

/-- C1: evaluation at the failing input. For a mesh object with exactly
65536 triangles the claim (and the design document) says the 16-bit count
field is written as 65536 mod 65536 = 0 and the write proceeds; the code
instead aborts: `struct.pack("<H", 65536)` raises `struct.error`, so the
buffer ends right after the name bytes (no triangle-count field, no
subsequent objects) and the export raises instead of writing a file. -/
theorem overflow_truncation_claim1 :
    (write_header [bigObj1]).err = some .structError ∧
    (write_header [bigObj1]).warnings = [[66]] ∧
    (write_header [bigObj1]).bytes =
      [1, 0, 0, 0, 0, 0, 0, 1, 0, 0, 0, 1, 0, 0, 0, 66] ∧
    write_sfmesh lzcTest [bigObj1] false = .error .structError := by
  have hbig : 2 ^ 16 ≤ bigMesh1.loop_triangles.length := by
    have h' : bigMesh1.loop_triangles = List.replicate (2 ^ 16) ⟨[]⟩ := rfl
    rw [h', List.length_replicate]
  have hho := header_objs_overflow bigObj1 bigMesh1 [] rfl hbig
    (by norm_num [bigObj1])
  have hp : pack_u 4 ([bigObj1].countP (fun o => o.type == "MESH")) =
      .ok (le_bytes 4 1) := by
    have h' : [bigObj1].countP (fun o => o.type == "MESH") = 1 := by rfl
    rw [h']
    unfold pack_u
    rw [if_pos (by norm_num)]
  have hwh : write_header [bigObj1] =
      ⟨version_bytes ++ options_bytes ++ le_bytes 4 1 ++
        (le_bytes 4 bigObj1.name.length ++ bigObj1.name),
       [bigObj1.name], some .structError⟩ := by
    simp only [write_header, hp, hho]
  refine ⟨by rw [hwh], by rw [hwh]; decide, ?_, ?_⟩
  · rw [hwh]
    decide
  · exact write_sfmesh_of_raw_err lzcTest _ false .structError
      (by rw [write_sfmesh_raw_of_header_err _ _ _ _ hwh])

/-- C9: evaluation of the warning rule. An object with 65535 triangles
produces no warning and its count packs as 255 255 with no error, as the
claim says; an object with 65536 triangles does get the warning reported,
but the pipeline then stops with an uncaught `struct.error` at the very
next line, contradicting the claim that reporting a warning does not stop
the pipeline. -/
theorem warning_iff_claim9 :
    (write_header [obj65535]).warnings = [] ∧
    (write_header [obj65535]).err = none ∧
    (write_header [obj65535]).bytes =
      [1, 0, 0, 0, 0, 0, 0, 1, 0, 0, 0, 1, 0, 0, 0, 65, 255, 255] ∧
    (write_header [bigObj9]).warnings = [[66]] ∧
    (write_header [bigObj9]).err = some .structError := by
  have h65 : mesh65535.loop_triangles.length = 65535 := by
    have h' : mesh65535.loop_triangles = List.replicate 65535 ⟨[]⟩ := rfl
    rw [h', List.length_replicate]
  have hho1 := header_objs_one_ok obj65535 mesh65535 rfl (by omega)
    (by norm_num [obj65535])
  have hp1 : pack_u 4 ([obj65535].countP (fun o => o.type == "MESH")) =
      .ok (le_bytes 4 1) := by
    have h' : [obj65535].countP (fun o => o.type == "MESH") = 1 := by rfl
    rw [h']
    unfold pack_u
    rw [if_pos (by norm_num)]
  have hwh1 : write_header [obj65535] =
      ⟨version_bytes ++ options_bytes ++ le_bytes 4 1 ++
        (le_bytes 4 obj65535.name.length ++ obj65535.name ++
          le_bytes 2 mesh65535.loop_triangles.length),
       [], none⟩ := by
    simp only [write_header, hp1, hho1]
  have hbig : 2 ^ 16 ≤ bigMesh9.loop_triangles.length := by
    have h' : bigMesh9.loop_triangles = List.replicate (2 ^ 16) ⟨[]⟩ := rfl
    rw [h', List.length_replicate]
  have hho9 := header_objs_overflow bigObj9 bigMesh9 [] rfl hbig
    (by norm_num [bigObj9])
  have hp9 : pack_u 4 ([bigObj9].countP (fun o => o.type == "MESH")) =
      .ok (le_bytes 4 1) := by
    have h' : [bigObj9].countP (fun o => o.type == "MESH") = 1 := by rfl
    rw [h']
    unfold pack_u
    rw [if_pos (by norm_num)]
  have hwh9 : write_header [bigObj9] =
      ⟨version_bytes ++ options_bytes ++ le_bytes 4 1 ++
        (le_bytes 4 bigObj9.name.length ++ bigObj9.name),
       [bigObj9.name], some .structError⟩ := by
    simp only [write_header, hp9, hho9]
  refine ⟨by rw [hwh1], by rw [hwh1], ?_, by rw [hwh9]; decide, by rw [hwh9]⟩
  rw [hwh1, h65]
  decide

/-- C7: a scene with one mesh object named `"Cube"` and twelve triangles
produces the header bytes 01 00 00 | 00 00 00 00 | 01 00 00 00 followed by
04 00 00 00, the name bytes, and 0C 00, then a body of exactly
12 x 3 x 44 = 1584 bytes. -/
theorem cube_scene_claim7 (obj : Obj) (m : Mesh)
    (htype : obj.type = "MESH") (hname : obj.name = [67, 117, 98, 101])
    (hres : obj.resolve = .ok m) (hvalid : meshValid m = true)
    (h12 : m.loop_triangles.length = 12) :
    ∃ body, write_sfmesh_raw [obj] =
      ⟨[1, 0, 0, 0, 0, 0, 0, 1, 0, 0, 0, 4, 0, 0, 0, 67, 117, 98, 101, 12, 0] ++ body,
       [], none⟩ ∧ body.length = 1584 := by
  have hok : ∀ o ∈ [obj], objOk o = true := by
    intro o ho
    rw [List.mem_singleton] at ho
    subst ho
    simp only [objOk, hres, Bool.and_eq_true, decide_eq_true_eq]
    exact ⟨⟨hvalid, by omega⟩, by rw [hname]; norm_num⟩
  have hcp : [obj].countP (fun o => o.type == "MESH") = 1 := by
    simp [List.countP_cons, htype]
  have hwh := write_header_ok [obj] hok (by rw [hcp]; norm_num)
  rw [hcp] at hwh
  have hwo := write_objects_ok [obj] hok
  have hlen : (objBodyBlock obj).length = 1584 := by
    rw [objBodyBlock_length obj m hres hvalid, h12]
  refine ⟨objBodyBlock obj, ?_, hlen⟩
  have hraw : write_sfmesh_raw [obj] =
      ⟨(version_bytes ++ options_bytes ++ le_bytes 4 1 ++
        concatMap objMetaBlock [obj]) ++ concatMap objBodyBlock [obj],
       [], none⟩ := by
    unfold write_sfmesh_raw
    rw [hwh, hwo]
  have hbytes : (version_bytes ++ options_bytes ++ le_bytes 4 1 ++
      concatMap objMetaBlock [obj]) ++ concatMap objBodyBlock [obj] =
      [1, 0, 0, 0, 0, 0, 0, 1, 0, 0, 0, 4, 0, 0, 0, 67, 117, 98, 101, 12, 0] ++
        objBodyBlock obj := by
    simp [concatMap, objMetaBlock, objNumTris, hres, hname, h12,
      version_bytes, options_bytes, le_bytes_four, le_bytes_two]
  rw [hraw, hbytes]

/-- C7 witness: the concrete twelve-triangle cube object. -/
theorem cube_scene_claim7_witness :
    (cubeObj.type = "MESH" ∧ cubeObj.name = [67, 117, 98, 101] ∧
     cubeObj.resolve = .ok cubeMesh ∧ meshValid cubeMesh = true ∧
     cubeMesh.loop_triangles.length = 12) ∧
    ∃ body, write_sfmesh_raw [cubeObj] =
      ⟨[1, 0, 0, 0, 0, 0, 0, 1, 0, 0, 0, 4, 0, 0, 0, 67, 117, 98, 101, 12, 0] ++ body,
       [], none⟩ ∧ body.length = 1584 :=
  ⟨⟨rfl, rfl, rfl, by decide, by decide⟩,
    cube_scene_claim7 cubeObj cubeMesh rfl rfl rfl (by decide) (by decide)⟩

end SFMesh
